import Mathlib

/-!
Verification of the stonks price-fetch pipeline.

Shallow embedding of the Python sources:
  src/main.py                 (legacy top-level script)
  src/stonks/app.py           (StonksApp orchestrator)
  src/stonks/providers.py     (JustETFProvider / YahooFinanceProvider / TASEProvider)
  src/stonks/data_fetcher.py  (JustETFDataFetcher / YahooFinanceDataFetcher / IssaDataFetcher)
  src/stonks/models.py        (SymbolConfig / SymbolData)
  src/stonks/utils.py         (get_latest_user_agent)
  src/stonks/config.py        (Config constants)

Prices are modelled as rationals, JSON payloads as a small inductive value
type, network and browser effects as explicit oracle arguments and event
traces.
-/

/-! ## Calendar dates (Python datetime.strptime / strftime) -/

/-- Gregorian leap-year rule, as used by Python datetime. -/
def isLeapYear (y : ℕ) : Bool :=
  (y % 4 == 0 && y % 100 != 0) || (y % 400 == 0)

/-- Number of days in a month of a given year. -/
def daysInMonth (y m : ℕ) : ℕ :=
  if m = 2 then (if isLeapYear y then 29 else 28)
  else if m = 4 ∨ m = 6 ∨ m = 9 ∨ m = 11 then 30
  else 31

/-- A calendar date, as held by a Python datetime value. -/
structure Date where
  year : ℕ
  month : ℕ
  day : ℕ
deriving DecidableEq, Repr

/-- Validity check performed by the Python datetime constructor. -/
def Date.valid (d : Date) : Bool :=
  1 ≤ d.month && d.month ≤ 12 && 1 ≤ d.day && d.day ≤ daysInMonth d.year d.month

/-- Split a character list at every occurrence of the separator. -/
def splitOnCharAux (sep : Char) : List Char → List Char → List (List Char)
  | [], acc => [acc.reverse]
  | c :: cs, acc =>
    if c = sep then acc.reverse :: splitOnCharAux sep cs []
    else splitOnCharAux sep cs (c :: acc)

/-- Split a string at every occurrence of a separator character. -/
def splitOnChar (s : String) (sep : Char) : List (List Char) :=
  splitOnCharAux sep s.data []

/-- Numeric value of a list of decimal digit characters. -/
def digitsToNat : List Char → ℕ → ℕ
  | [], acc => acc
  | c :: cs, acc => digitsToNat cs (acc * 10 + (c.toNat - 48))

/-- Parse a field of at most maxLen digits, as strptime numeric
directives do. -/
def parseNatDigits (s : List Char) (maxLen : ℕ) : Option ℕ :=
  if s.length = 0 ∨ maxLen < s.length ∨ ¬ s.all Char.isDigit then none
  else some (digitsToNat s 0)

/-- Python datetime.strptime with format %d/%m/%Y. -/
def strptimeDMY (s : String) : Option Date :=
  match splitOnChar s '/' with
  | [d, m, y] =>
    match parseNatDigits d 2, parseNatDigits m 2, parseNatDigits y 4 with
    | some dd, some mm, some yy =>
      if (Date.mk yy mm dd).valid then some (Date.mk yy mm dd) else none
    | _, _, _ => none
  | _ => none

/-- Python datetime.strptime with format %Y-%m-%d. -/
def strptimeYMD (s : String) : Option Date :=
  match splitOnChar s '-' with
  | [y, m, d] =>
    match parseNatDigits y 4, parseNatDigits m 2, parseNatDigits d 2 with
    | some yy, some mm, some dd =>
      if (Date.mk yy mm dd).valid then some (Date.mk yy mm dd) else none
    | _, _, _ => none
  | _ => none

/-- The character of a decimal digit. -/
def digitChar : ℕ → Char
  | 0 => '0' | 1 => '1' | 2 => '2' | 3 => '3' | 4 => '4'
  | 5 => '5' | 6 => '6' | 7 => '7' | 8 => '8' | _ => '9'

/-- Decimal digit characters of a natural number (fuel-driven so that the
recursion is structural). -/
def natDigits (fuel n : ℕ) : List Char :=
  match fuel with
  | 0 => []
  | fuel + 1 =>
    if n < 10 then [digitChar n]
    else natDigits fuel (n / 10) ++ [digitChar (n % 10)]

/-- Zero-pad a natural number to the given width. -/
def padNat (n width : ℕ) : List Char :=
  let s := natDigits (n + 1) n
  if s.length < width then List.replicate (width - s.length) '0' ++ s else s

/-- Python datetime.strftime with format %Y-%m-%d. -/
def strftimeYMD (d : Date) : String :=
  String.mk (padNat d.year 4 ++ '-' :: padNat d.month 2 ++ '-' :: padNat d.day 2)

/-! ## JSON values -/

/-- JSON values as produced by response.json() / json.loads, restricted to
the shapes the pipeline reads. -/
inductive Json where
  | num (q : ℚ)
  | str (s : String)
  | obj (fields : List (String × Json))

/-- Dictionary lookup on a JSON object (Python subscript on a dict). -/
def Json.get (j : Json) (key : String) : Option Json :=
  match j with
  | .obj fields => fields.lookup key
  | _ => none

/-- Read a JSON value as a number. -/
def Json.asNum : Json → Option ℚ
  | .num q => some q
  | _ => none

/-- Read a JSON value as a string. -/
def Json.asStr : Json → Option String
  | .str s => some s
  | _ => none

/-! ## Configuration constants (src/stonks/config.py) -/

/-- config.SELENIUM_MAX_RETRIES in src/stonks/config.py. -/
def Config.SELENIUM_MAX_RETRIES : ℕ := 10

/-- config.SELENIUM_WAIT_TIME (seconds) in src/stonks/config.py. -/
def Config.SELENIUM_WAIT_TIME : ℕ := 30

/-- config.TASE_MARKET_URL in src/stonks/config.py. -/
def Config.TASE_MARKET_URL : String := "https://market.tase.co.il/he/market_data/security"

/-- config.TASE_API_BASE_URL in src/stonks/config.py. -/
def Config.TASE_API_BASE_URL : String := "https://api.tase.co.il/api"

/-! ## Data model (src/stonks/models.py) -/

/-- A Python value stored in a symbol dictionary: the five configuration
keys hold strings, the price key holds a number. -/
inductive PyVal where
  | s (v : String)
  | q (v : ℚ)
deriving DecidableEq

/-- SymbolConfig dataclass from src/stonks/models.py (also stands for the
symbol_track_info dictionaries of src/main.py, which carry the same five
fields). -/
structure SymbolConfig where
  id : String
  type : String
  source : String
  symbol : String
  currency : String
deriving DecidableEq, Repr

/-- SymbolConfig.from_dict: reads the five keys out of a dictionary;
a missing key raises KeyError, modelled as none. -/
def SymbolConfig.from_dict (data : List (String × PyVal)) : Option SymbolConfig :=
  match data.lookup "id", data.lookup "type", data.lookup "source",
        data.lookup "symbol", data.lookup "currency" with
  | some (.s i), some (.s t), some (.s so), some (.s sy), some (.s c) =>
    some (SymbolConfig.mk i t so sy c)
  | _, _, _, _, _ => none

/-- SymbolData dataclass from src/stonks/models.py. -/
structure SymbolData where
  config : SymbolConfig
  price : ℚ
  price_date : String
deriving DecidableEq

/-- SymbolData.to_dict from src/stonks/models.py. -/
def SymbolData.to_dict (sd : SymbolData) : List (String × PyVal) :=
  [("id", .s sd.config.id),
   ("type", .s sd.config.type),
   ("source", .s sd.config.source),
   ("symbol", .s sd.config.symbol),
   ("currency", .s sd.config.currency),
   ("price", .q sd.price),
   ("price_date", .s sd.price_date)]

/-- PriceData as constructed by src/stonks/providers.py (its declaring
models variant is not under src/; the field list is pinned by the
constructor calls in providers.py: symbol, price, currency, date, source). -/
structure PriceData where
  symbol : String
  price : ℚ
  currency : String
  date : Date
  source : String
deriving DecidableEq, Repr

/-! ## Errors and HTTP responses -/

/-- Error kinds raised across the pipeline (Python exceptions, classified
by the site that raises them). -/
inductive FetchError where
  | httpError (status : ℕ)
  | malformedResponse
  | noData
  | invalidPrice
  | unsupportedSource (src : String)
  | resolverFailure
  | attemptException
deriving DecidableEq, Repr

/-- An HTTP response as seen by requests: status code and parsed JSON body. -/
structure HttpResponse where
  status : ℕ
  body : Json

/-- requests.Response.raise_for_status: raises for status codes in
[400, 600). -/
def raiseForStatus (status : ℕ) : Bool :=
  decide (400 ≤ status ∧ status < 600)

/-! ## User-agent resolution (src/stonks/utils.py, src/stonks/providers.py) -/

/-- The Python str.startswith test. -/
def strStartsWith (s p : String) : Bool :=
  p.data.isPrefixOf s.data

/-- Substring containment, the Python expression needle in hay. -/
def strContains (hay needle : String) : Bool :=
  decide (needle.data <:+: hay.data)

/-- get_latest_user_agent from src/stonks/utils.py.  The network fetch of
the public user-agent list is an oracle: none stands for a raised network
error, some gives the downloaded list.  The function catches every
exception and returns None, and otherwise returns the first agent whose
lowercased text contains both the operating system and the browser, or
None when no agent matches. -/
def get_latest_user_agent (fetched : Option (List String))
    (operating_system : String) (browser : String) : Option String :=
  match fetched with
  | none => none
  | some user_agents =>
    user_agents.find? (fun ua =>
      strContains ua.toLower operating_system.toLower &&
      strContains ua.toLower browser.toLower)

/-- Python right-operand fallback a or dflt for an optional string: the
left operand is used unless it is None or empty (falsy). -/
def pyOrStr (a : Option String) (dflt : String) : String :=
  match a with
  | some s => if s = "" then dflt else s
  | none => dflt

/-- JustETFProvider._get_user_agent from src/stonks/providers.py: the
network error of requests.get / raise_for_status is NOT caught and
propagates (error); otherwise the first matching agent is returned, or
None when no agent matches — there is no hardcoded default. -/
def JustETFProvider.get_user_agent (fetched : Option (List String)) :
    Except Unit (Option String) :=
  match fetched with
  | none => .error ()
  | some user_agents =>
    .ok (user_agents.find? (fun ua =>
      strContains ua.toLower "windows" && strContains ua.toLower "chrome"))

/-! ## JustETF fetchers (src/stonks/data_fetcher.py, src/stonks/providers.py) -/

/-- Field extraction performed on the JustETF response body:
symbol_info[latestQuote][raw] and symbol_info[latestQuoteDate].  A missing
key or wrongly-typed value raises (KeyError / TypeError), modelled as
none. -/
def justetfExtract (body : Json) : Option (ℚ × String) :=
  match (body.get "latestQuote").bind (fun lq => (lq.get "raw").bind Json.asNum),
        (body.get "latestQuoteDate").bind Json.asStr with
  | some p, some d => some (p, d)
  | _, _ => none

/-- JustETFDataFetcher.fetch_data from src/stonks/data_fetcher.py.
Arguments: the symbol configuration, the user-agent list fetch outcome,
and the HTTP response of the quote endpoint.  Returns the User-Agent
header value sent with the request and the fetch result.  The price and
price_date are taken verbatim from the response body. -/
def JustETFDataFetcher.fetch_data (cfg : SymbolConfig)
    (uaFetched : Option (List String)) (response : HttpResponse) :
    String × Except FetchError SymbolData :=
  let user_agent := pyOrStr (get_latest_user_agent uaFetched "windows" "chrome") "Mozilla/5.0"
  let result : Except FetchError SymbolData :=
    if raiseForStatus response.status then .error (.httpError response.status)
    else
      match justetfExtract response.body with
      | some (p, d) => .ok (SymbolData.mk cfg p d)
      | none => .error .malformedResponse
  (user_agent, result)

/-- JustETFProvider.get_price_data from src/stonks/providers.py.  The
user-agent resolution happens first and its network failure propagates;
the price date is parsed with strptime %Y-%m-%d, and the currency of the
returned PriceData is the currency argument passed in (the SymbolSpec
currency). -/
def JustETFProvider.get_price_data (uaFetched : Option (List String))
    (symbol : String) (currency : String) (response : HttpResponse) :
    Except FetchError PriceData :=
  match JustETFProvider.get_user_agent uaFetched with
  | .error _ => .error .resolverFailure
  | .ok _ua =>
    if raiseForStatus response.status then .error (.httpError response.status)
    else
      match justetfExtract response.body with
      | some (p, d) =>
        match strptimeYMD d with
        | some date => .ok (PriceData.mk symbol p currency date "justetf")
        | none => .error .malformedResponse
      | none => .error .malformedResponse

/-! ## TASE intercepted-browser provider (src/stonks/providers.py) -/

/-- A network request captured by selenium-wire: its URL and, when the
response arrived, the response (status code and body).  Brotli
decompression, UTF-8 decoding and JSON parsing of the body are modelled by
carrying the body as an already-parsed JSON value. -/
structure CapturedRequest where
  url : String
  response : Option HttpResponse

/-- TASEProvider._decode_response from src/stonks/providers.py: raises for
a status code in [400, 600), otherwise yields the decompressed, parsed
body. -/
def TASEProvider.decode_response (resp : HttpResponse) : Except FetchError Json :=
  if raiseForStatus resp.status then .error (.httpError resp.status)
  else .ok resp.body

/-- Handling of one captured request whose URL matches the security-data
endpoint, per src/stonks/providers.py lines 101-115: decode, check the
LastRate and TradeDate fields, divide the minor-unit integer price by 100,
parse the date with strptime %d/%m/%Y, hardcode the currency to ILS.  Any
exception (decode failure, non-numeric price, unparseable date) is caught,
logged and yields no result. -/
def TASEProvider.handleSecurityData (symbol : String) (resp : HttpResponse) :
    Option PriceData :=
  match TASEProvider.decode_response resp with
  | .error _ => none
  | .ok body =>
    match (body.get "LastRate").bind Json.asNum,
          (body.get "TradeDate").bind Json.asStr with
    | some rate, some dstr =>
      match strptimeDMY dstr with
      | some date => some (PriceData.mk symbol (rate / 100) "ILS" date "tase")
      | none => none
    | _, _ => none

/-- Handling of one captured request whose URL matches the mutual-funds
endpoint, per src/stonks/providers.py lines 117-131: decode, check the
purchasePrice and ratesAsOf fields, divide by 100, parse the date with
strptime %Y-%m-%d, hardcode the currency to ILS. -/
def TASEProvider.handleMutualFund (symbol : String) (resp : HttpResponse) :
    Option PriceData :=
  match TASEProvider.decode_response resp with
  | .error _ => none
  | .ok body =>
    match (body.get "purchasePrice").bind Json.asNum,
          (body.get "ratesAsOf").bind Json.asStr with
    | some rate, some dstr =>
      match strptimeYMD dstr with
      | some date => some (PriceData.mk symbol (rate / 100) "ILS" date "tase")
      | none => none
    | _, _ => none

/-- The request-scan loop of TASEProvider._get_price_with_selenium:
requests without a response are skipped; a request matching the
security-data URL prefix is handled first, then (the two prefix checks are
independent if statements) the mutual-funds prefix; the first request that
yields a PriceData is returned. -/
def TASEProvider.scanRequests (symbol : String) :
    List CapturedRequest → Option PriceData
  | [] => none
  | r :: rest =>
    match r.response with
    | none => TASEProvider.scanRequests symbol rest
    | some resp =>
      let sec :=
        if strStartsWith r.url (Config.TASE_API_BASE_URL ++ "/company/securitydata")
        then TASEProvider.handleSecurityData symbol resp
        else none
      match sec with
      | some pd => some pd
      | none =>
        let mutualFund :=
          if strStartsWith r.url "https://maya.tase.co.il/api/v1/funds/mutual"
          then TASEProvider.handleMutualFund symbol resp
          else none
        match mutualFund with
        | some pd => some pd
        | none => TASEProvider.scanRequests symbol rest

/-! ## Browser-session traces for one selenium attempt -/

/-- Events of one attempt of TASEProvider._get_price_with_selenium, in
order: browser launch, navigation, the network-settling wait (with its
duration in seconds), and session teardown. -/
inductive DriverEvent where
  | launch
  | navigate (url : String)
  | wait (seconds : ℕ)
  | quit
deriving DecidableEq, Repr

/-- What the body of one attempt does once the browser is up: the captured
request list to scan, or an exception raised before the wait completes. -/
inductive AttemptBody where
  | captured (reqs : List CapturedRequest)
  | raisedEarly
deriving Inhabited

/-- TASEProvider._get_price_with_selenium from src/stonks/providers.py:
launches the browser, navigates, waits config.SELENIUM_WAIT_TIME * attempt
seconds, scans the captured requests, and — in a try/finally — quits the
browser on every exit path, success, no-match and exception alike.
Returns the driver event trace and the outcome (ok none when no captured
request matched, error on a raised exception). -/
def TASEProvider.get_price_with_selenium (symbol : String) (attempt : ℕ)
    (body : AttemptBody) : List DriverEvent × Except FetchError (Option PriceData) :=
  match body with
  | .raisedEarly =>
    ([.launch, .navigate (Config.TASE_MARKET_URL ++ "/" ++ symbol), .quit],
     .error .attemptException)
  | .captured reqs =>
    ([.launch, .navigate (Config.TASE_MARKET_URL ++ "/" ++ symbol),
      .wait (Config.SELENIUM_WAIT_TIME * attempt), .quit],
     .ok (TASEProvider.scanRequests symbol reqs))

/-- Net number of live browser sessions created minus destroyed over an
event trace. -/
def sessionDelta : List DriverEvent → ℤ
  | [] => 0
  | .launch :: rest => sessionDelta rest + 1
  | .quit :: rest => sessionDelta rest - 1
  | _ :: rest => sessionDelta rest

/-! ## TASE retry loop (src/stonks/providers.py lines 69-80) -/

/-- Inner loop of TASEProvider.get_price_data over the attempt numbers
produced by range(1, maxRetries).  Per attempt: run
_get_price_with_selenium; a returned PriceData ends the loop; a falsy
result (None) falls through to the next attempt; an exception is caught
and logged unless the attempt number equals maxRetries - 1, in which case
it is re-raised.  Exhausting the range raises the final no-data exception
whose message claims maxRetries attempts were made.  The second component
counts the attempts actually performed. -/
def TASEProvider.fetchLoop (maxRetries : ℕ)
    (oracle : ℕ → AttemptBody) (symbol : String) :
    List ℕ → Except FetchError PriceData × ℕ
  | [] => (.error .noData, 0)
  | attempt :: rest =>
    match (TASEProvider.get_price_with_selenium symbol attempt (oracle attempt)).2 with
    | .ok (some pd) => (.ok pd, 1)
    | .ok none =>
      let r := TASEProvider.fetchLoop maxRetries oracle symbol rest
      (r.1, r.2 + 1)
    | .error e =>
      if attempt = maxRetries - 1 then (.error e, 1)
      else
        let r := TASEProvider.fetchLoop maxRetries oracle symbol rest
        (r.1, r.2 + 1)

/-- TASEProvider.get_price_data from src/stonks/providers.py: iterates
attempt over range(1, config.SELENIUM_MAX_RETRIES), i.e. the attempt
numbers 1 .. maxRetries - 1.  Parameterised by the retry bound and an
oracle giving each attempt's browser-body outcome; returns the result and
the number of attempts performed. -/
def TASEProvider.get_price_data (maxRetries : ℕ) (oracle : ℕ → AttemptBody)
    (symbol : String) : Except FetchError PriceData × ℕ :=
  TASEProvider.fetchLoop maxRetries oracle symbol (List.range' 1 (maxRetries - 1))

/-! ## Legacy issa fetch of src/main.py (fetch_price_from_issa) -/

/-- One attempt of fetch_price_from_issa in src/main.py lines 122-155: a
driver is created and navigated, the script sleeps 30 * attempt seconds
and scans the captured requests — and the function contains no driver.quit
call on any path, so no quit event ever appears in the trace. -/
def mainIssaAttemptTrace (info : SymbolConfig) (attempt : ℕ)
    (body : AttemptBody) : List DriverEvent :=
  let url :=
    if info.type = "etf"
    then "https://market.tase.co.il/he/market_data/security/" ++ info.symbol
    else "https://maya.tase.co.il/he/funds/mutual-funds/" ++ info.symbol
  match body with
  | .raisedEarly => [.launch, .navigate url]
  | .captured _ => [.launch, .navigate url, .wait (30 * attempt)]

/-! ## StonksApp orchestrator (src/stonks/app.py) -/

/-- The keys of the StonksApp.providers dictionary in src/stonks/app.py. -/
def StonksApp.providerKeys : List String := ["justetf", "yahoo_finance", "issa"]

/-- StonksApp.process_symbol from src/stonks/app.py: looks the source up
in the providers dictionary, raises ValueError for an unknown source, and
otherwise runs the provider, whose network/browser outcome is the fetch
oracle.  Any exception is logged and re-raised to the caller. -/
def StonksApp.process_symbol (fetch : SymbolConfig → Except FetchError SymbolData)
    (cfg : SymbolConfig) : Except FetchError SymbolData :=
  if StonksApp.providerKeys.contains cfg.source then fetch cfg
  else .error (.unsupportedSource cfg.source)

/-- StonksApp.run from src/stonks/app.py: iterates over the symbol files;
each failure of process_symbol is caught at the loop body, logged as a
failure for that symbol, and the loop continues with the next file.
Returns the list of records handed to storage and the list of symbol ids
whose processing failed. -/
def StonksApp.run (fetch : SymbolConfig → Except FetchError SymbolData) :
    List SymbolConfig → List SymbolData × List String
  | [] => ([], [])
  | cfg :: rest =>
    match StonksApp.process_symbol fetch cfg with
    | .ok sd =>
      let r := StonksApp.run fetch rest
      (sd :: r.1, r.2)
    | .error _ =>
      let r := StonksApp.run fetch rest
      (r.1, cfg.id :: r.2)

/-! ## Legacy orchestrator of src/main.py -/

/-- The Python falsy test `if not symbol_price` on a numeric-or-None
price: true exactly for None and for zero. -/
def pyFalsyPrice (p : Option ℚ) : Bool :=
  match p with
  | none => true
  | some q => q = 0

/-- process_symbol_file from src/main.py lines 48-72: symbol_price starts
at the integer 0 and symbol_price_date at the empty string; the if/elif
chain dispatches on the source field (an unknown source leaves both
initial values in place); each fetcher may raise, which propagates; then
the defensive check `if not symbol_price` raises for a falsy price and the
pair is returned otherwise.  The per-source fetch outcome is the oracle
argument. -/
def process_symbol_file
    (fetch : SymbolConfig → Except FetchError (Option ℚ × String))
    (info : SymbolConfig) : Except FetchError (Option ℚ × String) :=
  match
    (if info.source = "justetf" ∨ info.source = "yahoo_finance" ∨ info.source = "issa"
     then fetch info
     else .ok (some 0, "")) with
  | .error e => .error e
  | .ok (p, d) =>
    if pyFalsyPrice p then .error .invalidPrice else .ok (p, d)

/-- The symbol loop of main in src/main.py lines 169-231: for each symbol
file, process it and write its record to the dist directory; on any
exception, log it and re-raise (lines 228-231), which aborts the loop — no
later symbol file is processed.  Returns the records written before the
abort, keyed by symbol id, and whether the run aborted. -/
def mainRun (fetch : SymbolConfig → Except FetchError (Option ℚ × String)) :
    List SymbolConfig → List (String × (Option ℚ × String)) × Bool
  | [] => ([], false)
  | info :: rest =>
    match process_symbol_file fetch info with
    | .ok pd =>
      let r := mainRun fetch rest
      ((info.id, pd) :: r.1, r.2)
    | .error _ => ([], true)

/-! ## Helper lemmas -/

/-- The StonksApp loop processes an appended batch independently: records
and failures of the whole run are those of the two halves concatenated. -/
theorem StonksApp.run_append (fetch : SymbolConfig → Except FetchError SymbolData)
    (xs ys : List SymbolConfig) :
    StonksApp.run fetch (xs ++ ys)
      = ((StonksApp.run fetch xs).1 ++ (StonksApp.run fetch ys).1,
         (StonksApp.run fetch xs).2 ++ (StonksApp.run fetch ys).2) := by
  induction xs with
  | nil => simp [StonksApp.run]
  | cons x xs ih =>
    simp only [List.cons_append, StonksApp.run]
    cases hx : StonksApp.process_symbol fetch x <;> simp [ih]

/-- When every selenium attempt completes without an exception and without
a matching captured request, the retry loop walks the whole attempt list
and ends in the exhaustion error. -/
theorem TASEProvider.fetchLoop_all_unmatched (maxRetries : ℕ)
    (oracle : ℕ → AttemptBody) (symbol : String)
    (h : ∀ k, (TASEProvider.get_price_with_selenium symbol k (oracle k)).2
          = .ok none) :
    ∀ l, TASEProvider.fetchLoop maxRetries oracle symbol l
          = (.error .noData, l.length) := by
  intro l
  induction l with
  | nil => rfl
  | cons a rest ih => simp [TASEProvider.fetchLoop, h a, ih]

/-! ## Concrete example inputs -/

/-- Example symbol configuration 1 (succeeds). -/
def exSymbol1 : SymbolConfig := SymbolConfig.mk "sym1" "etf" "justetf" "IE0001" "USD"

/-- Example symbol configuration 2 (its upstream fails). -/
def exSymbol2 : SymbolConfig := SymbolConfig.mk "sym2" "etf" "justetf" "IE0002" "USD"

/-- Example symbol configuration 3 (succeeds). -/
def exSymbol3 : SymbolConfig := SymbolConfig.mk "sym3" "etf" "justetf" "IE0003" "USD"

/-- Upstream oracle for the legacy main.py orchestrator: symbol sym2
fails, every other symbol yields price 1 dated 2024-01-01. -/
def exMainFetch : SymbolConfig → Except FetchError (Option ℚ × String) :=
  fun info => if info.id = "sym2" then .error .noData else .ok (some 1, "2024-01-01")

/-- Upstream oracle for the StonksApp orchestrator: symbol sym2 fails,
every other symbol yields price 1 dated 2024-01-01. -/
def exAppFetch : SymbolConfig → Except FetchError SymbolData :=
  fun cfg => if cfg.id = "sym2" then .error .noData
             else .ok (SymbolData.mk cfg 1 "2024-01-01")

/-! ## C1: per-symbol failure isolation -/

/-- C1 counterexample: in the orchestrator of src/main.py, the loop body
re-raises every exception (lines 228-231), so a failure on symbol 2 of 3
aborts the run: symbol 3 is never processed and yields no record, even
though its upstream fetch succeeds. -/
theorem mainRun_aborts_on_failure :
    mainRun exMainFetch [exSymbol1, exSymbol2, exSymbol3]
      = ([("sym1", (some 1, "2024-01-01"))], true)
    ∧ process_symbol_file exMainFetch exSymbol3 = .ok (some 1, "2024-01-01")
    ∧ ∀ r ∈ (mainRun exMainFetch [exSymbol1, exSymbol2, exSymbol3]).1,
        r.1 ≠ "sym3" := by
  refine ⟨rfl, rfl, ?_⟩
  have h1 : (mainRun exMainFetch [exSymbol1, exSymbol2, exSymbol3]).1
      = [("sym1", (some 1, "2024-01-01"))] := rfl
  rw [h1]
  intro r hr
  rw [List.mem_singleton] at hr
  subst hr
  decide

/-- C1 (amended): in StonksApp.run (src/stonks/app.py), a failure while
processing any earlier symbol never aborts processing of later symbols:
every symbol whose process_symbol call succeeds contributes its record to
the run output, whatever the outcomes of the symbols around it. -/
theorem stonksApp_run_isolates_failures
    (fetch : SymbolConfig → Except FetchError SymbolData)
    (xs ys : List SymbolConfig) (cfg : SymbolConfig) (sd : SymbolData)
    (hok : StonksApp.process_symbol fetch cfg = .ok sd) :
    sd ∈ (StonksApp.run fetch (xs ++ cfg :: ys)).1 := by
  rw [StonksApp.run_append]
  simp only [List.mem_append]
  right
  simp [StonksApp.run, hok]

/-- C1 witness: with an upstream that fails on sym2 only, the record of
sym3 appears in the StonksApp run output for the batch sym1, sym2, sym3. -/
theorem stonksApp_run_isolates_failures_witness :
    SymbolData.mk exSymbol3 1 "2024-01-01"
      ∈ (StonksApp.run exAppFetch ([exSymbol1, exSymbol2] ++ exSymbol3 :: [])).1 :=
  stonksApp_run_isolates_failures exAppFetch [exSymbol1, exSymbol2] [] exSymbol3
    (SymbolData.mk exSymbol3 1 "2024-01-01") rfl

/-! ## C2: defensive price check before the Sink -/

/-- C2 counterexample: the defensive check of src/main.py lines 69-70 is
the falsy test `if not symbol_price`, which rejects only a zero or absent
price.  A justetf fetch reporting price -1 passes the check and the pair
is returned for persisting, so a forwarded price need not satisfy
price > 0; and the date string is forwarded verbatim, here a DD/MM/YYYY
string that is not of the YYYY-MM-DD shape (strptime %Y-%m-%d rejects
it). -/
theorem process_symbol_file_forwards_negative_price :
    process_symbol_file (fun _ => .ok (some (-1), "15/03/2024"))
        (SymbolConfig.mk "neg" "etf" "justetf" "IE0004" "USD")
      = .ok (some (-1), "15/03/2024")
    ∧ ¬ (0 < (-1 : ℚ))
    ∧ strptimeYMD "15/03/2024" = none := by
  refine ⟨?_, by norm_num, rfl⟩
  have h : pyFalsyPrice (some (-1)) = false := by
    simp [pyFalsyPrice]
  simp [process_symbol_file, h]

/-- C2 (amended): every price pair that process_symbol_file of src/main.py
returns for persisting carries a present, nonzero price: the defensive
check `if not symbol_price` raises exactly on an absent or zero price,
independent of the provider's own success signal.  Negative prices are
not rejected, and the date string is forwarded without format
validation. -/
theorem process_symbol_file_price_nonzero
    (fetch : SymbolConfig → Except FetchError (Option ℚ × String))
    (info : SymbolConfig) (p : Option ℚ) (d : String)
    (h : process_symbol_file fetch info = .ok (p, d)) :
    ∃ q, p = some q ∧ q ≠ 0 := by
  unfold process_symbol_file at h
  rcases hr : (if info.source = "justetf" ∨ info.source = "yahoo_finance" ∨ info.source = "issa"
      then fetch info else Except.ok (some 0, "")) with e | pd
  · rw [hr] at h
    exact absurd h (by simp)
  · rw [hr] at h
    obtain ⟨p', d'⟩ := pd
    by_cases hf : pyFalsyPrice p'
    · simp [hf] at h
    · simp only [hf, Bool.false_eq_true, if_false, Except.ok.injEq, Prod.mk.injEq] at h
      obtain ⟨hp, _⟩ := h
      subst hp
      cases p' with
      | none => simp [pyFalsyPrice] at hf
      | some q =>
        refine ⟨q, rfl, ?_⟩
        intro h0
        subst h0
        simp [pyFalsyPrice] at hf

/-- C2 witness: a fetch returning price 1 passes the defensive check and
the returned price is nonzero. -/
theorem process_symbol_file_price_nonzero_witness :
    ∃ q, (some (1 : ℚ)) = some q ∧ q ≠ 0 :=
  process_symbol_file_price_nonzero (fun _ => .ok (some 1, "2024-01-01"))
    exSymbol1 (some 1) "2024-01-01" rfl

/-! ## C3: number of attempts in the intercepted-browser retry loop -/

/-- C3 counterexample: with the configured maximum attempt count
config.SELENIUM_MAX_RETRIES = 10 and no matching intercepted request on
any attempt, TASEProvider.get_price_data (src/stonks/providers.py lines
69-80) performs 9 attempts — range(1, 10) — and not 10, before raising
the exhaustion error whose message itself claims 10 attempts. -/
theorem tase_attempt_count_not_max_retries :
    TASEProvider.get_price_data Config.SELENIUM_MAX_RETRIES
        (fun _ => .captured []) "1159250"
      = (.error .noData, 9)
    ∧ (9 : ℕ) ≠ Config.SELENIUM_MAX_RETRIES := by
  exact ⟨rfl, by decide⟩

/-- C3 (amended): for every configured maximum attempt count N, when no
attempt raises and no attempt observes a matching intercepted request,
TASEProvider.get_price_data performs exactly N - 1 attempts — the loop
iterates over range(1, N) — and then fails with the no-data exhaustion
error. -/
theorem tase_no_match_performs_pred_attempts (maxRetries : ℕ)
    (oracle : ℕ → AttemptBody) (symbol : String)
    (h : ∀ k, ∃ reqs, oracle k = .captured reqs
          ∧ TASEProvider.scanRequests symbol reqs = none) :
    TASEProvider.get_price_data maxRetries oracle symbol
      = (.error .noData, maxRetries - 1) := by
  have h2 : ∀ k, (TASEProvider.get_price_with_selenium symbol k (oracle k)).2
      = .ok none := by
    intro k
    obtain ⟨reqs, hk, hscan⟩ := h k
    simp [TASEProvider.get_price_with_selenium, hk, hscan]
  unfold TASEProvider.get_price_data
  rw [TASEProvider.fetchLoop_all_unmatched maxRetries oracle symbol h2]
  simp [List.length_range']

/-- C3 witness: at the configured count 10 with empty capture lists on
every attempt, the loop performs 9 attempts and raises no-data. -/
theorem tase_no_match_performs_pred_attempts_witness :
    TASEProvider.get_price_data 10 (fun _ => .captured []) "5113022"
      = (.error .noData, 10 - 1) :=
  tase_no_match_performs_pred_attempts 10 (fun _ => .captured []) "5113022"
    (fun _ => ⟨[], rfl, rfl⟩)

/-! ## C4: minor-unit division and date normalization of both payloads -/

/-- C4: scanning a captured request that matches the security-data prefix
with payload LastRate 5034, TradeDate 15/03/2024 yields price 5034/100 =
50.34 with the date parsed from DD/MM/YYYY as 2024-03-15; scanning one
matching the mutual-fund prefix with purchasePrice 998, ratesAsOf
2024-03-15 yields price 998/100 = 9.98 with the date 2024-03-15; in both
cases strftime %Y-%m-%d renders the stored date as the string
"2024-03-15". -/
theorem tase_payload_conversion :
    TASEProvider.scanRequests "1159250"
        [CapturedRequest.mk "https://api.tase.co.il/api/company/securitydata?id=1159250"
          (some (HttpResponse.mk 200
            (Json.obj [("LastRate", .num 5034), ("TradeDate", .str "15/03/2024")])))]
      = some (PriceData.mk "1159250" ((5034 : ℚ) / 100) "ILS" (Date.mk 2024 3 15) "tase")
    ∧ (5034 : ℚ) / 100 = 50.34
    ∧ TASEProvider.scanRequests "5113022"
        [CapturedRequest.mk "https://maya.tase.co.il/api/v1/funds/mutual?id=5113022"
          (some (HttpResponse.mk 200
            (Json.obj [("purchasePrice", .num 998), ("ratesAsOf", .str "2024-03-15")])))]
      = some (PriceData.mk "5113022" ((998 : ℚ) / 100) "ILS" (Date.mk 2024 3 15) "tase")
    ∧ (998 : ℚ) / 100 = 9.98
    ∧ strftimeYMD (Date.mk 2024 3 15) = "2024-03-15" := by
  refine ⟨rfl, by norm_num, rfl, by norm_num, rfl⟩

/-! ## C5: browser-session teardown on every exit path -/

/-- C5 counterexample: fetch_price_from_issa in src/main.py (lines
119-155) contains no driver.quit call: after a single attempt its event
trace holds a launch and no quit, so the live-session count ends at 1,
not 0 — the claim fails on this intercepted-browser fetch. -/
theorem main_issa_attempt_leaks_session :
    sessionDelta (mainIssaAttemptTrace
        (SymbolConfig.mk "symA" "etf" "issa" "1159250" "ILS") 1 (.captured [])) = 1
    ∧ DriverEvent.quit ∉ mainIssaAttemptTrace
        (SymbolConfig.mk "symA" "etf" "issa" "1159250" "ILS") 1 (.captured []) := by
  exact ⟨rfl, by decide⟩

/-- C5 (amended): every attempt of TASEProvider._get_price_with_selenium
(src/stonks/providers.py, try/finally) tears the session down on every
exit path — matched, unmatched or exception — so its event trace always
nets to zero live sessions and ends with the quit event; the legacy
fetch_price_from_issa of src/main.py never quits its driver. -/
theorem selenium_attempt_closes_session (symbol : String) (attempt : ℕ)
    (body : AttemptBody) :
    sessionDelta (TASEProvider.get_price_with_selenium symbol attempt body).1 = 0
    ∧ (TASEProvider.get_price_with_selenium symbol attempt body).1.getLast?
        = some DriverEvent.quit := by
  cases body <;> exact ⟨rfl, rfl⟩

/-! ## C6: linear scaling of the network-settling wait -/

/-- C6: every wait event in the trace of attempt k of
TASEProvider._get_price_with_selenium has duration
config.SELENIUM_WAIT_TIME * k (line 93 of src/stonks/providers.py), and
the wait strictly escalates from each attempt to the next; the same holds
of the legacy fetch_price_from_issa attempts of src/main.py, whose base
wait is the literal 30 seconds. -/
theorem selenium_wait_scales_linearly (symbol : String) (info : SymbolConfig)
    (attempt : ℕ) (body : AttemptBody) (seconds : ℕ)
    (hmem : DriverEvent.wait seconds
        ∈ (TASEProvider.get_price_with_selenium symbol attempt body).1) :
    seconds = Config.SELENIUM_WAIT_TIME * attempt
    ∧ Config.SELENIUM_WAIT_TIME * attempt < Config.SELENIUM_WAIT_TIME * (attempt + 1)
    ∧ (∀ s, DriverEvent.wait s ∈ mainIssaAttemptTrace info attempt body →
        s = 30 * attempt) := by
  refine ⟨?_, ?_, ?_⟩
  · cases body
    · simp [TASEProvider.get_price_with_selenium] at hmem
      exact hmem
    · simp [TASEProvider.get_price_with_selenium] at hmem
  · simp only [Config.SELENIUM_WAIT_TIME]
    omega
  · intro s hs
    cases body
    · simp [mainIssaAttemptTrace] at hs
      exact hs
    · simp [mainIssaAttemptTrace] at hs

/-- C6 witness: attempt 2 of the TASE provider waits exactly 60 = 30 * 2
seconds. -/
theorem selenium_wait_scales_linearly_witness :
    (60 : ℕ) = Config.SELENIUM_WAIT_TIME * 2
    ∧ Config.SELENIUM_WAIT_TIME * 2 < Config.SELENIUM_WAIT_TIME * (2 + 1)
    ∧ (∀ s, DriverEvent.wait s ∈ mainIssaAttemptTrace exSymbol1 2 (.captured []) →
        s = 30 * 2) :=
  selenium_wait_scales_linearly "1159250" exSymbol1 2 (.captured []) 60
    (List.Mem.tail _ (List.Mem.tail _ (List.Mem.head _)))

/-! ## C7: direct-quote provider parsing -/

/-- C7: for a 2xx response whose body is of the shape
latestQuote.raw = p, latestQuoteDate = d, JustETFDataFetcher.fetch_data
returns a record with price p, price_date d, and the configuration —
hence the currency — copied unchanged from the symbol spec; and for any
2xx response body on which the latestQuote.raw / latestQuoteDate
extraction fails, the fetch fails with the malformed-response error. -/
theorem justetf_fetch_parses_quote (cfg : SymbolConfig)
    (ua : Option (List String)) (st : ℕ) (p : ℚ) (d : String) (body : Json)
    (h2xx : 200 ≤ st ∧ st < 300) :
    (JustETFDataFetcher.fetch_data cfg ua (HttpResponse.mk st
        (Json.obj [("latestQuote", Json.obj [("raw", Json.num p)]),
                   ("latestQuoteDate", Json.str d)]))).2
      = .ok (SymbolData.mk cfg p d)
    ∧ (SymbolData.mk cfg p d).config.currency = cfg.currency
    ∧ (justetfExtract body = none →
        (JustETFDataFetcher.fetch_data cfg ua (HttpResponse.mk st body)).2
          = .error .malformedResponse) := by
  have hst : raiseForStatus st = false := by
    simp only [raiseForStatus, decide_eq_false_iff_not, not_and, not_lt]
    omega
  refine ⟨?_, rfl, ?_⟩
  · simp only [JustETFDataFetcher.fetch_data, hst, Bool.false_eq_true, if_false]
    rfl
  · intro hx
    simp [JustETFDataFetcher.fetch_data, hst, hx]

/-- C7 witness: the documented example — body latestQuote.raw 12.34,
latestQuoteDate 2024-03-01, currency USD — parses to that record, and a
body missing the fields is rejected as malformed. -/
theorem justetf_fetch_parses_quote_witness :
    (JustETFDataFetcher.fetch_data (SymbolConfig.mk "w" "etf" "justetf" "IE00B4L5Y983" "USD")
        none (HttpResponse.mk 200
        (Json.obj [("latestQuote", Json.obj [("raw", Json.num 12.34)]),
                   ("latestQuoteDate", Json.str "2024-03-01")]))).2
      = .ok (SymbolData.mk (SymbolConfig.mk "w" "etf" "justetf" "IE00B4L5Y983" "USD") 12.34 "2024-03-01")
    ∧ (SymbolData.mk (SymbolConfig.mk "w" "etf" "justetf" "IE00B4L5Y983" "USD") 12.34 "2024-03-01").config.currency = "USD"
    ∧ (justetfExtract (Json.obj []) = none →
        (JustETFDataFetcher.fetch_data (SymbolConfig.mk "w" "etf" "justetf" "IE00B4L5Y983" "USD")
            none (HttpResponse.mk 200 (Json.obj []))).2
          = .error .malformedResponse) := by
  have h := justetf_fetch_parses_quote
    (SymbolConfig.mk "w" "etf" "justetf" "IE00B4L5Y983" "USD") none 200 12.34
    "2024-03-01" (Json.obj []) (by omega)
  exact h

/-! ## C8: unknown source fails closed without aborting the run -/

/-- C8: for a symbol whose source is not a key of the StonksApp providers
dictionary, process_symbol raises the unknown-data-source error, so the
run records no data for it; the surrounding loop catches the error,
records exactly one failure entry carrying that symbol id, and the
records and failures of the remaining symbols are exactly those the run
produces without the offending symbol — processing continues. -/
theorem unknown_source_skipped
    (fetch : SymbolConfig → Except FetchError SymbolData)
    (xs ys : List SymbolConfig) (cfg : SymbolConfig)
    (hsrc : StonksApp.providerKeys.contains cfg.source = false) :
    StonksApp.process_symbol fetch cfg = .error (.unsupportedSource cfg.source)
    ∧ (StonksApp.run fetch (xs ++ cfg :: ys)).1
        = (StonksApp.run fetch xs).1 ++ (StonksApp.run fetch ys).1
    ∧ (StonksApp.run fetch (xs ++ cfg :: ys)).2
        = (StonksApp.run fetch xs).2 ++ cfg.id :: (StonksApp.run fetch ys).2 := by
  have hps : StonksApp.process_symbol fetch cfg
      = .error (.unsupportedSource cfg.source) := by
    unfold StonksApp.process_symbol
    rw [hsrc]
    simp
  refine ⟨hps, ?_, ?_⟩ <;>
    rw [StonksApp.run_append fetch xs (cfg :: ys)] <;>
    simp [StonksApp.run, hps]

/-- C8 witness: a batch of three symbols whose middle symbol names the
source unsupported_value yields records for the outer two only and one
failure entry for the middle one. -/
theorem unknown_source_skipped_witness :
    StonksApp.process_symbol exAppFetch
        (SymbolConfig.mk "symX" "etf" "unsupported_value" "X1" "USD")
      = .error (.unsupportedSource "unsupported_value")
    ∧ (StonksApp.run exAppFetch ([exSymbol1]
        ++ SymbolConfig.mk "symX" "etf" "unsupported_value" "X1" "USD" :: [exSymbol3])).1
        = (StonksApp.run exAppFetch [exSymbol1]).1 ++ (StonksApp.run exAppFetch [exSymbol3]).1
    ∧ (StonksApp.run exAppFetch ([exSymbol1]
        ++ SymbolConfig.mk "symX" "etf" "unsupported_value" "X1" "USD" :: [exSymbol3])).2
        = (StonksApp.run exAppFetch [exSymbol1]).2
          ++ "symX" :: (StonksApp.run exAppFetch [exSymbol3]).2 :=
  unknown_source_skipped exAppFetch [exSymbol1] [exSymbol3]
    (SymbolConfig.mk "symX" "etf" "unsupported_value" "X1" "USD") (by decide)

/-! ## C9: user-agent resolution fallback -/

/-- C9 counterexample: in JustETFProvider (src/stonks/providers.py), a
network failure of the user-agent resolution propagates out of
_get_user_agent and fails the whole fetch — the code proceeds with no
hardcoded default even though the quote response itself is perfectly
well-formed. -/
theorem justetf_provider_fails_without_user_agent :
    JustETFProvider.get_price_data none "IE00B4L5Y983" "USD"
        (HttpResponse.mk 200
          (Json.obj [("latestQuote", Json.obj [("raw", Json.num 12.34)]),
                     ("latestQuoteDate", Json.str "2024-03-01")]))
      = .error .resolverFailure := rfl

/-- C9 (amended): in JustETFDataFetcher (src/stonks/data_fetcher.py) the
claim holds: whenever get_latest_user_agent resolves to None — network
error or no matching agent, both swallowed inside utils.py — the request
is sent with the hardcoded default Mozilla/5.0 User-Agent, and the fetch
outcome is exactly what it would be under any other resolver outcome; in
JustETFProvider (src/stonks/providers.py) a resolver network error
instead propagates and fails the fetch. -/
theorem justetf_datafetcher_user_agent_fallback (cfg : SymbolConfig)
    (fetched : Option (List String)) (response : HttpResponse)
    (hfail : get_latest_user_agent fetched "windows" "chrome" = none) :
    (JustETFDataFetcher.fetch_data cfg fetched response).1 = "Mozilla/5.0"
    ∧ (JustETFDataFetcher.fetch_data cfg fetched response).2
        = (JustETFDataFetcher.fetch_data cfg none response).2 := by
  constructor
  · simp [JustETFDataFetcher.fetch_data, hfail, pyOrStr]
  · rfl

/-- C9 witness: with the user-agent download itself failing, the fetcher
sends Mozilla/5.0 and its outcome matches the reference outcome. -/
theorem justetf_datafetcher_user_agent_fallback_witness :
    (JustETFDataFetcher.fetch_data exSymbol1 none
        (HttpResponse.mk 200 (Json.obj []))).1 = "Mozilla/5.0"
    ∧ (JustETFDataFetcher.fetch_data exSymbol1 none
        (HttpResponse.mk 200 (Json.obj []))).2
        = (JustETFDataFetcher.fetch_data exSymbol1 none
            (HttpResponse.mk 200 (Json.obj []))).2 :=
  justetf_datafetcher_user_agent_fallback exSymbol1 none
    (HttpResponse.mk 200 (Json.obj [])) rfl

/-! ## C10: round-trip of the symbol dictionary -/

/-- C10: for every SymbolData value, parsing its serialized dictionary
recovers the configuration exactly: SymbolConfig.from_dict of
SymbolData.to_dict yields the original config — the five configuration
keys are read back and the extra price and price_date entries do not
disturb the parse. -/
theorem symbol_config_roundtrip (sd : SymbolData) :
    SymbolConfig.from_dict (SymbolData.to_dict sd) = some sd.config := rfl
